import Mathlib

/-!
Verification of the pollutant-dispersion model of the Mantaro river
visualization scripts (`funcion.py`, `prototipo1.py`, `prototipo3.py`,
`prototipo_final.py`).

Every definition below is a shallow embedding of the corresponding Python
code: machine floats are modelled by real numbers, numpy arrays by Lean
functions or lists, and the per-frame particle loops by explicit state
passing.  The random draws of `np.random.normal` are modelled by an
explicit noise parameter.
-/

open Real

noncomputable section

/-- Python's `int(...)` applied to a float truncates toward zero. -/
def pyInt (r : ℝ) : ℤ := if 0 ≤ r then ⌊r⌋ else ⌈r⌉

/-- Python's `round(...)` rounds half to even (banker's rounding); away
from a tie it agrees with rounding to the nearest integer. -/
def pyRound (r : ℝ) : ℤ :=
  if Int.fract r = 1 / 2 then (if Even ⌊r⌋ then ⌊r⌋ else ⌊r⌋ + 1) else round r

/-- `np.linspace a b cnt` : the `i`-th of `cnt` evenly spaced samples over
`[a, b]`, endpoints included.  (For `cnt = 1`, numpy returns `[a]`; the
real-division-by-zero convention of Lean gives the same value.) -/
def linspace (a b : ℝ) (cnt i : ℕ) : ℝ := a + (b - a) * i / ((cnt : ℝ) - 1)

/-- A `Prop`-valued "every element" predicate on lists, used to state list
invariants without a hypothesis binder. -/
def ForallP {α : Type} (P : α → Prop) : List α → Prop
  | [] => True
  | a :: l => P a ∧ ForallP P l

theorem forallP_iff_mem {α : Type} {P : α → Prop} {l : List α} :
    ForallP P l ↔ ∀ a ∈ l, P a := by
  induction l with
  | nil => simp [ForallP]
  | cons a l ih => simp [ForallP, ih]

/-! ## `funcion.py`

Module-level decay constant `k = 0.1`, a dictionary `puntos` of discharge
zones, the Heaviside step `H` and the accumulated total `C_total`. -/

/-- A discharge zone of `funcion.py`: `{"x_i": ..., "B": ...}`. -/
structure Zona where
  name : String
  xi : ℝ
  B : ℝ

/-- `funcion.py` line 5: `k = 0.1`. -/
def kFuncion : ℝ := 0.1

/-- `funcion.py` lines 9-14: the `puntos` dictionary. -/
def puntos : List Zona :=
  [⟨"La Oroya", 0, 1.5⟩, ⟨"El Tambo", 50, 150⟩, ⟨"Chilca", 55, 50⟩,
   ⟨"Huancayo", 58, 120⟩]

/-- `funcion.py` lines 17-18: `H(x) = np.where(x >= 0, 1, 0)`. -/
def H (x : ℝ) : ℝ := if 0 ≤ x then 1 else 0

/-- `funcion.py` line 25: the per-zone concentration
`C_i = B * k * np.exp(-k * (x - x_i)) * H(x - x_i)`. -/
def C_i (B k xi x : ℝ) : ℝ := B * k * Real.exp (-k * (x - xi)) * H (x - xi)

/-- `funcion.py` lines 21-26: `C_total` starts at zero and accumulates
`C_i` for each zone of the dictionary in order. -/
def C_total (zonas : List Zona) (k x : ℝ) : ℝ :=
  zonas.foldl (fun acc z => acc + C_i z.B k z.xi x) 0

theorem c_total_shift (zonas : List Zona) (k x a : ℝ) :
    zonas.foldl (fun acc z => acc + C_i z.B k z.xi x) a
      = a + C_total zonas k x := by
  induction zonas generalizing a with
  | nil => simp [C_total]
  | cons z l ih =>
    simp only [List.foldl_cons]
    rw [ih]
    have h2 : C_total (z :: l) k x = (0 + C_i z.B k z.xi x) + C_total l k x := by
      unfold C_total
      simp only [List.foldl_cons]
      rw [ih]
      rfl
    rw [h2]
    ring

theorem c_total_append (l₁ l₂ : List Zona) (k x : ℝ) :
    C_total (l₁ ++ l₂) k x = C_total l₁ k x + C_total l₂ k x := by
  unfold C_total
  rw [List.foldl_append, c_total_shift]
  rfl

/-! ## `prototipo1.py` — `MantaroRiverModel`

The constructor stores the city table and the scalar parameters; the mesh
and the concentration field are derived from them.  The methods read
`self.*` attributes, so they are embedded as functions of a record holding
those attributes.  The lateral sample count (50, from
`np.linspace(-2, 2, 50)`) is kept as an explicit parameter `m` so that the
grid-shape statements can quantify over it; the source fixes `m = 50`. -/

/-- One entry of `cities_data` in `prototipo1.py`: distance (km from La
Oroya) and waste (t/day), plus a display color. -/
structure City where
  name : String
  distance : ℝ
  waste : ℝ
  color : String

/-- `prototipo1.py` lines 13-19: the `cities_data` dictionary. -/
def citiesData : List City :=
  [⟨"Yauli (La Oroya)", 0, 27.1, "#FF4444"⟩,
   ⟨"Jauja", 53, 10.5, "#FF8800"⟩,
   ⟨"Concepción", 81, 38.8, "#FFBB00"⟩,
   ⟨"Huancayo", 103, 382.5, "#FF0000"⟩,
   ⟨"Chupaca", 114, 18.9, "#AA4444"⟩]

/-- The attributes installed by `MantaroRiverModel.__init__`
(`prototipo1.py` lines 11-28): the city table, decay constant `k`, river
length, width scale and mesh resolution. -/
structure MantaroModel where
  cities : List City
  k : ℝ
  riverLength : ℝ
  widthScale : ℝ
  resolution : ℕ

/-- `MantaroRiverModel.__init__` takes no arguments, performs no
validation and unconditionally installs these constants
(`prototipo1.py` lines 11-28). -/
def initModel : MantaroModel :=
  { cities := citiesData, k := 0.2, riverLength := 114, widthScale := 2,
    resolution := 100 }

/-- `prototipo1.py` line 34: `x_river = np.linspace(0, river_length,
resolution)`. -/
def xRiver (mdl : MantaroModel) (i : ℕ) : ℝ :=
  linspace 0 mdl.riverLength mdl.resolution i

/-- `prototipo1.py` line 41: the meandering centerline offset
`y_center = 0.5 * np.sin(0.05 * x * 2 * np.pi)`. -/
def yCenter (x : ℝ) : ℝ := 0.5 * Real.sin (0.05 * x * (2 * π))

/-- `prototipo1.py` line 44: `river_width = (30 + 20 * np.sin(0.03 * x *
2 * np.pi)) * river_width_scale`. -/
def riverWidth (mdl : MantaroModel) (x : ℝ) : ℝ :=
  (30 + 20 * Real.sin (0.03 * x * (2 * π))) * mdl.widthScale

/-- `prototipo1.py` line 53: `width_factor = river_width[i] /
(2 * river_width_scale)`. -/
def widthFactor (mdl : MantaroModel) (x : ℝ) : ℝ :=
  riverWidth mdl x / (2 * mdl.widthScale)

/-- `prototipo1.py` lines 47-54: the adjusted lateral coordinate of grid
cell `(j, i)`, `Y_adjusted[j, i] = Y[j, i] * width_factor + y_center[i]`,
where row `j` of `Y` is the `j`-th of the `m` samples of
`np.linspace(-2, 2, m)` (source: `m = 50`). -/
def yAdjusted (mdl : MantaroModel) (m j i : ℕ) : ℝ :=
  linspace (-2) 2 m j * widthFactor mdl (xRiver mdl i) + yCenter (xRiver mdl i)

/-- `prototipo1.py` lines 95-99 and `prototipo_final.py` lines 84-88 (the
two definitions are textually identical): `pollution_function(x, xi, Bi)`
returns `0` when `x < xi` and `Bi * k * np.exp(-k * (x - xi))` otherwise;
`k` is the `self.k` attribute, passed here explicitly. -/
def pollution_function (k x xi Bi : ℝ) : ℝ :=
  if x < xi then 0 else Bi * k * Real.exp (-k * (x - xi))

/-- `prototipo1.py` line 123: the lateral Gaussian factor
`np.exp(-((Y_adjusted[j, i]) ** 2) / 0.5)`, a function of the cell's
adjusted lateral coordinate only. -/
def lateralFactor (y : ℝ) : ℝ := Real.exp (-(y ^ 2) / 0.5)

/-- The contribution of one city to grid cell `(j, i)`
(`prototipo1.py` lines 117-124): dispersion value at `x_river[i]` times
the lateral Gaussian factor. -/
def cityContribution (mdl : MantaroModel) (m : ℕ) (c : City) (j i : ℕ) : ℝ :=
  pollution_function mdl.k (xRiver mdl i) c.distance c.waste
    * lateralFactor (yAdjusted mdl m j i)

/-- `calculate_pollution_field` (`prototipo1.py` lines 101-126) as a cell
function: starting from a zero field, each city whose name is in
`active_cities` adds its contribution to every cell. -/
def fieldFun (mdl : MantaroModel) (m : ℕ) (active : List String) :
    ℕ → ℕ → ℝ :=
  mdl.cities.foldl
    (fun f c => if c.name ∈ active then fun j i => f j i + cityContribution mdl m c j i else f)
    (fun _ _ => 0)

/-- The grid returned by `calculate_pollution_field`: `m` rows (lateral
samples), each of `resolution` longitudinal samples, mirroring the shape
of `np.zeros_like(self.X)` with `X, Y = np.meshgrid(x_river, y_river)`. -/
def calculatePollutionField (mdl : MantaroModel) (m : ℕ) (active : List String) :
    List (List ℝ) :=
  (List.range m).map fun j => (List.range mdl.resolution).map fun i =>
    fieldFun mdl m active j i

/-- The spec's `total_concentration`: the sum of `pollution_function` over
the active cities, evaluated at a single position `x`. -/
def totalConcentration (mdl : MantaroModel) (active : List String) (x : ℝ) : ℝ :=
  ((mdl.cities.filter fun c => c.name ∈ active).map
    fun c => pollution_function mdl.k x c.distance c.waste).sum

theorem fieldFun_shift (cities : List City) (g : City → ℕ → ℕ → ℝ)
    (active : List String) (f₀ : ℕ → ℕ → ℝ) (j i : ℕ) :
    (cities.foldl
      (fun f c => if c.name ∈ active then fun j i => f j i + g c j i else f) f₀) j i
      = f₀ j i + ((cities.filter fun c => c.name ∈ active).map fun c => g c j i).sum := by
  induction cities generalizing f₀ with
  | nil => simp
  | cons c l ih =>
    by_cases hc : c.name ∈ active <;>
      simp [List.foldl_cons, List.filter_cons, hc, ih] <;> ring

/-- Closed form of the cell function: total concentration at `x_river[i]`
times the lateral factor of the cell. -/
theorem fieldFun_eq (mdl : MantaroModel) (m : ℕ) (active : List String) (j i : ℕ) :
    fieldFun mdl m active j i
      = totalConcentration mdl active (xRiver mdl i)
          * lateralFactor (yAdjusted mdl m j i) := by
  unfold fieldFun totalConcentration cityContribution
  rw [fieldFun_shift]
  rw [← List.sum_map_mul_right]
  simp

/-! ## Claims C1 - C4 : the governing dispersion equation -/

/-- C1.  For every source and query position `x` with `x < xi` the
concentration is exactly `0` (no upstream transport), and for `xi ≤ x` it
is exactly `Bi * k * exp (-k * (x - xi))`; this holds both for
`pollution_function` of `prototipo1.py`/`prototipo_final.py` and for the
Heaviside form `C_i` of `funcion.py`. -/
theorem pollution_zero_upstream_exp_downstream (k x xi Bi : ℝ) :
    (x < xi → pollution_function k x xi Bi = 0 ∧ C_i Bi k xi x = 0) ∧
    (xi ≤ x → pollution_function k x xi Bi = Bi * k * Real.exp (-k * (x - xi)) ∧
      C_i Bi k xi x = Bi * k * Real.exp (-k * (x - xi))) := by
  constructor
  · intro hlt
    constructor
    · simp [pollution_function, hlt]
    · have : ¬ (0 ≤ x - xi) := by linarith
      simp [C_i, H, this]
  · intro hle
    constructor
    · simp [pollution_function, not_lt.mpr hle]
    · have : 0 ≤ x - xi := by linarith
      simp [C_i, H, this]

theorem pollution_zero_upstream_exp_downstream_witness :
    ((1 : ℝ) < 53 ∧
      pollution_function 0.2 1 53 10.5 = 0 ∧ C_i 10.5 0.2 53 1 = 0) ∧
    ((0 : ℝ) ≤ 53 ∧
      pollution_function 0.2 53 0 27.1 = 27.1 * 0.2 * Real.exp (-(0.2) * (53 - 0))) :=
  ⟨⟨by norm_num,
    (pollution_zero_upstream_exp_downstream 0.2 1 53 10.5).1 (by norm_num)⟩,
   ⟨by norm_num,
    ((pollution_zero_upstream_exp_downstream 0.2 53 0 27.1).2 (by norm_num)).1⟩⟩

/-- C2.  For every source and every `k > 0`, the concentration evaluated
exactly at the source location is the peak value `Bi * k`; concretely,
for the source at `location = 0`, `rate = 27.1` with `k = 0.2` the value
at `x = 0` is `5.42` and the value at `x = 53` is
`27.1 * 0.2 * exp (-0.2 * 53)`. -/
theorem pollution_peak_at_source :
    (∀ k xi Bi : ℝ, 0 < k → pollution_function k xi xi Bi = Bi * k) ∧
    pollution_function 0.2 0 0 27.1 = 5.42 ∧
    pollution_function 0.2 53 0 27.1 = 27.1 * 0.2 * Real.exp (-(0.2) * 53) := by
  refine ⟨fun k xi Bi _ => ?_, ?_, ?_⟩
  · simp [pollution_function]
  · norm_num [pollution_function]
  · norm_num [pollution_function]

theorem pollution_peak_at_source_witness :
    (0 : ℝ) < 0.2 ∧ pollution_function 0.2 0 0 27.1 = 27.1 * 0.2 :=
  ⟨by norm_num, pollution_peak_at_source.1 0.2 0 27.1 (by norm_num)⟩

/-- Numeric bounds on `exp 2.5`, derived from the nine-digit bounds on
`exp 1`. -/
theorem exp_two_point_five_bounds :
    (12.181 : ℝ) < Real.exp 2.5 ∧ Real.exp 2.5 < 12.184 := by
  have h5 : Real.exp 5 = Real.exp 1 ^ 5 := by
    rw [show (5 : ℝ) = 1 + 1 + 1 + 1 + 1 by norm_num, Real.exp_add, Real.exp_add,
      Real.exp_add, Real.exp_add]
    ring
  have hsq : Real.exp 2.5 * Real.exp 2.5 = Real.exp 5 := by
    rw [← Real.exp_add]; norm_num
  have hlo : (2.7182818283 : ℝ) ^ 5 < Real.exp 1 ^ 5 :=
    pow_lt_pow_left Real.exp_one_gt_d9 (by norm_num) (by norm_num)
  have hhi : Real.exp 1 ^ 5 < (2.7182818286 : ℝ) ^ 5 :=
    pow_lt_pow_left Real.exp_one_lt_d9 (Real.exp_pos 1).le (by norm_num)
  have h5lo : (148.41 : ℝ) < Real.exp 5 := by rw [h5]; nlinarith
  have h5hi : Real.exp 5 < (148.42 : ℝ) := by rw [h5]; nlinarith
  have hp : (0 : ℝ) < Real.exp 2.5 := Real.exp_pos 2.5
  constructor
  · nlinarith
  · nlinarith

/-- The concrete two-source scenario of the spec, evaluated exactly. -/
theorem c_total_two_sources_value :
    C_total [⟨"s1", 0, 10⟩, ⟨"s2", 50, 20⟩] 0.1 25 = Real.exp (-2.5) := by
  have h1 : (0 : ℝ) ≤ 25 - 0 := by norm_num
  have h2 : ¬ (0 : ℝ) ≤ 25 - 50 := by norm_num
  simp only [C_total, List.foldl_cons, List.foldl_nil, C_i, H, h1, h2, if_true,
    if_false, if_pos, if_neg, not_false_iff]
  norm_num

/-- C3 (counterexample).  The claimed exact value is wrong: the total
concentration of the two-source scenario at `x = 25` is `exp (-2.5)`,
which is not equal to `0.0821`. -/
theorem total_at_25_not_exactly_0_0821 :
    C_total [⟨"s1", 0, 10⟩, ⟨"s2", 50, 20⟩] 0.1 25 ≠ 0.0821 := by
  rw [c_total_two_sources_value]
  have h := exp_two_point_five_bounds.1
  have hx : Real.exp (-2.5) = (Real.exp 2.5)⁻¹ := Real.exp_neg 2.5
  have hp : (0 : ℝ) < Real.exp 2.5 := Real.exp_pos 2.5
  have : Real.exp (-2.5) < 0.0821 := by
    rw [hx]
    have h1 : (Real.exp 2.5)⁻¹ < (12.181 : ℝ)⁻¹ := by
      apply inv_lt_inv_of_lt (by norm_num) h
    calc (Real.exp 2.5)⁻¹ < (12.181 : ℝ)⁻¹ := h1
      _ < 0.0821 := by norm_num
  exact ne_of_lt this

/-- C3 (amended).  Total concentration is the linear superposition of the
sources: for two sources it is the sum of the two individual
concentrations, and appending source lists adds the totals.  In the
concrete scenario the total at `x = 25` is
`10 * 0.1 * exp (-0.1 * 25) + 0` (the second source contributes zero
because `25 < 50`), which is within `10⁻⁴` of the spec's rounded value
`0.0821` but not exactly equal to it. -/
theorem superposition_of_sources :
    (∀ z₁ z₂ : Zona, ∀ k x : ℝ, 0 < k →
      C_total [z₁, z₂] k x = C_i z₁.B k z₁.xi x + C_i z₂.B k z₂.xi x) ∧
    (∀ l₁ l₂ : List Zona, ∀ k x : ℝ,
      C_total (l₁ ++ l₂) k x = C_total l₁ k x + C_total l₂ k x) ∧
    C_total [⟨"s1", 0, 10⟩, ⟨"s2", 50, 20⟩] 0.1 25
      = 10 * 0.1 * Real.exp (-(0.1) * 25) + 0 ∧
    |C_total [⟨"s1", 0, 10⟩, ⟨"s2", 50, 20⟩] 0.1 25 - 0.0821| < 1 / 10000 := by
  refine ⟨fun z₁ z₂ k x _ => ?_, c_total_append, ?_, ?_⟩
  · simp [C_total, List.foldl_cons, List.foldl_nil]
  · rw [c_total_two_sources_value]
    norm_num
  · rw [c_total_two_sources_value]
    obtain ⟨hlo, hhi⟩ := exp_two_point_five_bounds
    have hp : (0 : ℝ) < Real.exp 2.5 := Real.exp_pos 2.5
    have hx : Real.exp (-2.5) = (Real.exp 2.5)⁻¹ := Real.exp_neg 2.5
    have hb1 : Real.exp (-2.5) < (12.181 : ℝ)⁻¹ := by
      rw [hx]; exact inv_lt_inv_of_lt (by norm_num) hlo
    have hb2 : (12.184 : ℝ)⁻¹ < Real.exp (-2.5) := by
      rw [hx]; exact inv_lt_inv_of_lt hp hhi
    rw [abs_lt]
    constructor <;> nlinarith

theorem superposition_of_sources_witness :
    (0 : ℝ) < 0.1 ∧
    C_total [⟨"s1", 0, 10⟩, ⟨"s2", 50, 20⟩] 0.1 25
      = C_i 10 0.1 0 25 + C_i 20 0.1 50 25 :=
  ⟨by norm_num,
   superposition_of_sources.1 ⟨"s1", 0, 10⟩ ⟨"s2", 50, 20⟩ 0.1 25 (by norm_num)⟩

/-- C4.  Monotone downstream decay: for a source with non-negative rate,
`k > 0` and positions `xi ≤ x₁ < x₂`, the concentration at `x₂` is at
most the concentration at `x₁`. -/
theorem monotone_downstream_decay (Bi k xi x₁ x₂ : ℝ)
    (hB : 0 ≤ Bi) (hk : 0 < k) (h₁ : xi ≤ x₁) (h₁₂ : x₁ < x₂) :
    pollution_function k x₂ xi Bi ≤ pollution_function k x₁ xi Bi := by
  have hn₁ : ¬ x₁ < xi := not_lt.mpr h₁
  have hn₂ : ¬ x₂ < xi := not_lt.mpr (h₁.trans h₁₂.le)
  simp only [pollution_function, hn₁, hn₂, if_false, if_neg, not_false_iff]
  have hexp : Real.exp (-k * (x₂ - xi)) ≤ Real.exp (-k * (x₁ - xi)) :=
    Real.exp_le_exp.mpr (by nlinarith)
  exact mul_le_mul_of_nonneg_left hexp (by positivity)

theorem monotone_downstream_decay_witness :
    (0 : ℝ) ≤ 27.1 ∧ (0 : ℝ) < 0.2 ∧ (0 : ℝ) ≤ 10 ∧ (10 : ℝ) < 20 ∧
    pollution_function 0.2 20 0 27.1 ≤ pollution_function 0.2 10 0 27.1 :=
  ⟨by norm_num, by norm_num, by norm_num, by norm_num,
   monotone_downstream_decay 27.1 0.2 0 10 20 (by norm_num) (by norm_num)
     (by norm_num) (by norm_num)⟩

/-! ## Claims C5 - C6 : the 2-D concentration field -/

theorem lateralFactor_pos (y : ℝ) : 0 < lateralFactor y := Real.exp_pos _

theorem lateralFactor_le_one (y : ℝ) : lateralFactor y ≤ 1 := by
  unfold lateralFactor
  rw [← Real.exp_zero]
  apply Real.exp_le_exp.mpr
  have h : -(y ^ 2) / 0.5 = -2 * y ^ 2 := by ring
  rw [h]
  nlinarith [sq_nonneg y]

theorem pollution_function_nonneg (k x xi Bi : ℝ) (hk : 0 ≤ k) (hB : 0 ≤ Bi) :
    0 ≤ pollution_function k x xi Bi := by
  unfold pollution_function
  split
  · exact le_refl 0
  · positivity

theorem pollution_function_le_peak (k x xi Bi : ℝ) (hk : 0 ≤ k) (hB : 0 ≤ Bi) :
    pollution_function k x xi Bi ≤ Bi * k := by
  unfold pollution_function
  split
  · positivity
  · next h =>
    have hxi : xi ≤ x := not_lt.mp h
    have hexp : Real.exp (-k * (x - xi)) ≤ 1 := by
      rw [← Real.exp_zero]
      exact Real.exp_le_exp.mpr (by nlinarith)
    nlinarith [mul_nonneg hB hk]

theorem totalConcentration_nonneg (mdl : MantaroModel) (active : List String)
    (x : ℝ) (hk : 0 ≤ mdl.k) (hc : ∀ c ∈ mdl.cities, 0 ≤ c.waste) :
    0 ≤ totalConcentration mdl active x := by
  apply List.sum_nonneg
  intro v hv
  obtain ⟨c, hcmem, rfl⟩ := List.mem_map.mp hv
  exact pollution_function_nonneg _ _ _ _ hk
    (hc c (List.mem_of_mem_filter hcmem))

theorem total_le_aux (l : List City) (k x : ℝ) (active : List String)
    (hk : 0 ≤ k) (hc : ∀ c ∈ l, 0 ≤ c.waste) :
    ((l.filter fun c => c.name ∈ active).map
      (fun c => pollution_function k x c.distance c.waste)).sum
      ≤ k * (l.map City.waste).sum := by
  induction l with
  | nil => simp
  | cons c t ih =>
    have hcw : 0 ≤ c.waste := hc c (List.mem_cons_self c t)
    have iht := ih fun d hd => hc d (List.mem_cons_of_mem c hd)
    rw [List.filter_cons]
    by_cases h : c.name ∈ active
    · rw [if_pos (by simp [h])]
      simp only [List.map_cons, List.sum_cons]
      have h1 := pollution_function_le_peak k x c.distance c.waste hk hcw
      nlinarith
    · rw [if_neg (by simp [h])]
      simp only [List.map_cons, List.sum_cons]
      nlinarith [mul_nonneg hk hcw]

theorem totalConcentration_le (mdl : MantaroModel) (active : List String)
    (x : ℝ) (hk : 0 ≤ mdl.k) (hc : ∀ c ∈ mdl.cities, 0 ≤ c.waste) :
    totalConcentration mdl active x ≤ mdl.k * (mdl.cities.map City.waste).sum :=
  total_le_aux mdl.cities mdl.k x active hk hc

/-- C5 (counterexample).  The lateral attenuation applied by
`calculate_pollution_field` is `exp (-(Y_adjusted²) / 0.5)`: it is a
Gaussian in the cell's absolute lateral coordinate, centered at `0`, not
at the river centerline.  At the longitudinal sample `i = 1` of the
source model, the centerline offset `y_center[1]` is strictly positive,
and the attenuation the code assigns to a point lying exactly on the
centerline is strictly less than `1` — refuting the claim that the
attenuation equals `1` at the centerline. -/
theorem attenuation_at_centerline_lt_one :
    0 < yCenter (xRiver initModel 1) ∧
    lateralFactor (yCenter (xRiver initModel 1)) < 1 := by
  have hx : xRiver initModel 1 = 114 / 99 := by
    simp [xRiver, initModel, linspace]
    norm_num
  have harg : (0.05 : ℝ) * (114 / 99) * (2 * π) = 19 / 165 * π := by
    ring_nf
  have hsin : 0 < Real.sin (19 / 165 * π) := by
    apply Real.sin_pos_of_pos_of_lt_pi
    · positivity
    · nlinarith [Real.pi_pos]
  have hyc : 0 < yCenter (xRiver initModel 1) := by
    rw [hx]
    unfold yCenter
    rw [harg]
    positivity
  refine ⟨hyc, ?_⟩
  unfold lateralFactor
  rw [Real.exp_lt_one_iff]
  have h2 : -(yCenter (xRiver initModel 1) ^ 2) / 0.5
      = -2 * yCenter (xRiver initModel 1) ^ 2 := by ring
  rw [h2]
  nlinarith [pow_pos hyc 2]

/-- C5 (amended).  Every cell `(j, i)` of the field equals the total
longitudinal concentration at `x_river[i]` multiplied by the Gaussian
factor `exp (-(Y_adjusted[j,i]²) / 0.5)` of the cell's absolute lateral
coordinate; that factor is centered at the absolute coordinate `0` (not
at the centerline offset), always lies in `(0, 1]`, and tends to `0` as
the absolute lateral coordinate grows. -/
theorem field_cell_eq_total_times_gaussian :
    (∀ (mdl : MantaroModel) (m : ℕ) (active : List String) (j i : ℕ),
      fieldFun mdl m active j i
        = totalConcentration mdl active (xRiver mdl i)
            * lateralFactor (yAdjusted mdl m j i)) ∧
    (∀ y : ℝ, 0 < lateralFactor y ∧ lateralFactor y ≤ 1) ∧
    (∀ ε : ℝ, 0 < ε → ∃ M : ℝ, ∀ y : ℝ, M ≤ |y| → lateralFactor y < ε) := by
  refine ⟨fun mdl m active j i => fieldFun_eq mdl m active j i,
    fun y => ⟨lateralFactor_pos y, lateralFactor_le_one y⟩, fun ε hε => ?_⟩
  refine ⟨Real.sqrt (1 / ε), fun y hy => ?_⟩
  have hM2 : Real.sqrt (1 / ε) ^ 2 = 1 / ε := Real.sq_sqrt (by positivity)
  have hy2 : 1 / ε ≤ y ^ 2 := by
    have h1 : Real.sqrt (1 / ε) ^ 2 ≤ |y| ^ 2 :=
      pow_le_pow_left (Real.sqrt_nonneg _) hy 2
    rwa [hM2, sq_abs] at h1
  have hmono : lateralFactor y ≤ Real.exp (-(2 / ε)) := by
    unfold lateralFactor
    apply Real.exp_le_exp.mpr
    have h2 : -(y ^ 2) / 0.5 = -2 * y ^ 2 := by ring
    have h3 : -(2 / ε) = -2 * (1 / ε) := by ring
    rw [h2, h3]
    nlinarith
  have hlast : Real.exp (-(2 / ε)) < ε := by
    have hpos : (0 : ℝ) < 2 / ε + 1 := by positivity
    have hle : 2 / ε + 1 ≤ Real.exp (2 / ε) := Real.add_one_le_exp (2 / ε)
    have hneg : Real.exp (-(2 / ε)) = (Real.exp (2 / ε))⁻¹ := Real.exp_neg _
    have hinv : (Real.exp (2 / ε))⁻¹ ≤ (2 / ε + 1)⁻¹ :=
      inv_le_inv_of_le hpos hle
    have hmul : ε * (2 / ε + 1) = 2 + ε := by
      field_simp
    have hinvpos : 0 < (2 / ε + 1)⁻¹ := by positivity
    have hcancel : (2 / ε + 1)⁻¹ * (2 / ε + 1) = 1 :=
      inv_mul_cancel₀ hpos.ne'
    have hfin : (2 / ε + 1)⁻¹ < ε := by nlinarith
    calc Real.exp (-(2 / ε)) = (Real.exp (2 / ε))⁻¹ := hneg
      _ ≤ (2 / ε + 1)⁻¹ := hinv
      _ < ε := hfin
  exact lt_of_le_of_lt hmono hlast

theorem field_cell_eq_total_times_gaussian_witness :
    (fieldFun initModel 50 ["Yauli (La Oroya)"] 0 0
      = totalConcentration initModel ["Yauli (La Oroya)"] (xRiver initModel 0)
          * lateralFactor (yAdjusted initModel 50 0 0)) ∧
    (0 < lateralFactor 1 ∧ lateralFactor 1 ≤ 1) ∧
    ((0 : ℝ) < 1 ∧ ∃ M : ℝ, ∀ y : ℝ, M ≤ |y| → lateralFactor y < 1) :=
  ⟨field_cell_eq_total_times_gaussian.1 initModel 50 ["Yauli (La Oroya)"] 0 0,
   field_cell_eq_total_times_gaussian.2.1 1,
   by norm_num, field_cell_eq_total_times_gaussian.2.2 1 (by norm_num)⟩

/-- C6.  For every model with `resolution = n > 0` longitudinal samples,
every lateral sample count `m > 0`, non-negative waste rates and `k > 0`,
the computed field is a grid of `m` rows of `n` cells (one value per
`(longitudinal, lateral)` sample pair, stored row-per-lateral-sample as
the source's numpy array of shape `(m, n)` is), and every cell is
non-negative and bounded above by `k` times the total waste rate — in
particular every cell is a (finite) real number. -/
theorem pollution_field_shape_and_bounds
    (mdl : MantaroModel) (m : ℕ) (active : List String)
    (hn : 0 < mdl.resolution) (hm : 0 < m)
    (hc : ∀ c ∈ mdl.cities, 0 ≤ c.waste) (hk : 0 < mdl.k) :
    (calculatePollutionField mdl m active).length = m ∧
    (calculatePollutionField mdl m active).map List.length
      = List.replicate m mdl.resolution ∧
    ∀ row ∈ calculatePollutionField mdl m active, ∀ v ∈ row,
      0 ≤ v ∧ v ≤ mdl.k * (mdl.cities.map City.waste).sum := by
  refine ⟨by simp [calculatePollutionField], ?_, ?_⟩
  · apply List.eq_replicate.mpr
    constructor
    · simp [calculatePollutionField]
    · intro b hb
      simp only [calculatePollutionField, List.map_map, List.mem_map,
        Function.comp] at hb
      obtain ⟨j, _, rfl⟩ := hb
      simp
  · intro row hrow v hv
    simp only [calculatePollutionField, List.mem_map] at hrow
    obtain ⟨j, _, rfl⟩ := hrow
    simp only [List.mem_map] at hv
    obtain ⟨i, _, rfl⟩ := hv
    rw [fieldFun_eq]
    have htn := totalConcentration_nonneg mdl active (xRiver mdl i) hk.le hc
    have htl := totalConcentration_le mdl active (xRiver mdl i) hk.le hc
    have hl1 := lateralFactor_le_one (yAdjusted mdl m j i)
    have hl0 := lateralFactor_pos (yAdjusted mdl m j i)
    constructor
    · positivity
    · calc totalConcentration mdl active (xRiver mdl i)
            * lateralFactor (yAdjusted mdl m j i)
          ≤ totalConcentration mdl active (xRiver mdl i) * 1 :=
            mul_le_mul_of_nonneg_left hl1 htn
        _ = totalConcentration mdl active (xRiver mdl i) := mul_one _
        _ ≤ mdl.k * (mdl.cities.map City.waste).sum := htl

theorem pollution_field_shape_and_bounds_witness :
    (0 < initModel.resolution ∧ 0 < 50 ∧
      (∀ c ∈ initModel.cities, 0 ≤ c.waste) ∧ 0 < initModel.k) ∧
    ((calculatePollutionField initModel 50 ["Huancayo"]).length = 50 ∧
      (calculatePollutionField initModel 50 ["Huancayo"]).map List.length
        = List.replicate 50 initModel.resolution ∧
      ∀ row ∈ calculatePollutionField initModel 50 ["Huancayo"], ∀ v ∈ row,
        0 ≤ v ∧ v ≤ initModel.k * (initModel.cities.map City.waste).sum) := by
  have hc : ∀ c ∈ initModel.cities, 0 ≤ c.waste := by
    intro c hcmem
    simp only [initModel, citiesData, List.mem_cons, List.not_mem_nil,
      or_false] at hcmem
    rcases hcmem with rfl | rfl | rfl | rfl | rfl <;> norm_num
  refine ⟨⟨by norm_num [initModel], by norm_num, hc, by norm_num [initModel]⟩, ?_⟩
  exact pollution_field_shape_and_bounds initModel 50 ["Huancayo"]
    (by norm_num [initModel]) (by norm_num) hc (by norm_num [initModel])

/-! ## Claim C7 : parameter validation at construction time -/

/-- C7 (code evaluated at the failing input).  Neither
`MantaroRiverModel.__init__` (`prototipo1.py` lines 11-28) nor
`MantaroRiverAnimation.__init__` (`prototipo_final.py` lines 10-45)
validates anything: no `InvalidParameterError` exists in the repository
and construction installs fixed constants unconditionally
(`initModel.k = 0.2`).  Supplying a non-positive decay constant `k = -1`
to the dispersion formula is silently accepted and yields the negative
concentration `-e` instead of an error. -/
theorem invalid_parameters_silently_accepted :
    pollution_function (-1) 1 0 1 < 0 ∧ initModel.k = 0.2 := by
  constructor
  · unfold pollution_function
    rw [if_neg (by norm_num)]
    nlinarith [Real.exp_pos (-(-1 : ℝ) * (1 - 0))]
  · rfl

/-! ## Claim C8 : determinism / absence of hidden state -/

/-- C8.  The dispersion computation is a pure function of the
constructed attributes and the explicit call inputs: any two models whose
stored attributes are equal produce identical per-source concentrations
and identical full fields for the same active-city list, irrespective of
how many times they are evaluated. -/
theorem dispersion_deterministic (a b : MantaroModel)
    (hcit : a.cities = b.cities) (hk : a.k = b.k)
    (hL : a.riverLength = b.riverLength) (hw : a.widthScale = b.widthScale)
    (hr : a.resolution = b.resolution) :
    (∀ x xi Bi : ℝ, pollution_function a.k x xi Bi = pollution_function b.k x xi Bi) ∧
    ∀ (m : ℕ) (active : List String),
      calculatePollutionField a m active = calculatePollutionField b m active := by
  obtain ⟨ac, ak, aL, aw, ar⟩ := a
  obtain ⟨bc, bk, bL, bw, br⟩ := b
  cases hcit; cases hk; cases hL; cases hw; cases hr
  exact ⟨fun _ _ _ => rfl, fun _ _ => rfl⟩

theorem dispersion_deterministic_witness :
    pollution_function initModel.k 25 0 27.1
        = pollution_function (MantaroModel.mk citiesData 0.2 114 2 100).k 25 0 27.1 ∧
    calculatePollutionField initModel 50 ["Huancayo"]
      = calculatePollutionField (MantaroModel.mk citiesData 0.2 114 2 100) 50 ["Huancayo"] :=
  ⟨(dispersion_deterministic initModel (MantaroModel.mk citiesData 0.2 114 2 100)
      rfl rfl rfl rfl rfl).1 25 0 27.1,
   (dispersion_deterministic initModel (MantaroModel.mk citiesData 0.2 114 2 100)
      rfl rfl rfl rfl rfl).2 50 ["Huancayo"]⟩

/-! ## `prototipo_final.py` — `MantaroRiverAnimation`

Constants installed by `__init__` (lines 10-45), the serpentine river
path (lines 47-68), and the per-frame particle state.  Random draws
(`np.random.normal(0, 0.05)`) are modelled by an explicit noise function
indexed by the particle's position in the list. -/

/-- `prototipo_final.py` line 36: `k = 0.2`. -/
def kA : ℝ := 0.2

/-- `prototipo_final.py` line 35: `river_length = 144`. -/
def riverLengthA : ℝ := 144

/-- `prototipo_final.py` line 37: `resolution = 200`. -/
def resolutionA : ℕ := 200

/-- `prototipo_final.py` line 39: `animation_speed = 2.0` (km/frame). -/
def animationSpeed : ℝ := 2.0

/-- One entry of `cities_data` in `prototipo_final.py` (lines 12-33). -/
structure CityF where
  name : String
  distance : ℝ
  waste : ℝ
  color : String
  elevation : ℝ

/-- `prototipo_final.py` lines 12-33: the `cities_data` dictionary. -/
def citiesDataF : List CityF :=
  [⟨"Yauli (La Oroya)", 0, 27.1, "#FF4444", 3700⟩,
   ⟨"Jauja", 53, 10.5, "#FF8800", 3400⟩,
   ⟨"Concepción", 81, 38.8, "#FFBB00", 3300⟩,
   ⟨"Huancayo", 103, 382.5, "#FF0000", 3200⟩,
   ⟨"Chupaca", 114, 18.9, "#AA4444", 3100⟩]

/-- `prototipo_final.py` line 49: `x_river = np.linspace(0, river_length,
resolution)`. -/
def xRiverF (i : ℕ) : ℝ := linspace 0 riverLengthA resolutionA i

/-- `prototipo_final.py` lines 51-54: the serpentine lateral offset
`y_river = curve1 + curve2 + curve3`. -/
def yRiverF (i : ℕ) : ℝ :=
  8 * Real.sin (0.02 * xRiverF i * (2 * π))
    + 3 * Real.sin (0.05 * xRiverF i * (2 * π) + 1.5)
    + 1.5 * Real.sin (0.1 * xRiverF i * (2 * π) + 3)

/-- `prototipo_final.py` line 56: `z_river = 3700 - x_river * 5.2`. -/
def zRiverF (i : ℕ) : ℝ := 3700 - xRiverF i * 5.2

/-- Python list lookup `self.y_river[idx]` for an integer index that the
code has already checked to be `< resolution`; a negative index wraps
around from the end, as Python indexing does for `-resolution ≤ idx < 0`
(the scripts never produce indices below `-resolution`). -/
def yRiverAt (idx : ℤ) : ℝ := yRiverF (idx % (resolutionA : ℤ)).toNat

/-- Python list lookup `self.z_river[idx]`, as `yRiverAt`. -/
def zRiverAt (idx : ℤ) : ℝ := zRiverF (idx % (resolutionA : ℤ)).toNat

/-- A waste particle dictionary (`prototipo_final.py` lines 112-124). -/
structure Particle where
  id : ℕ
  x : ℝ
  y : ℝ
  z : ℝ
  age : ℕ
  sourceCity : String
  color : String
  size : ℝ
  Bi : ℝ
  xi : ℝ
  opacity : ℝ

/-- The dispersion value of a particle,
`Cx = Bi * k * np.exp(-k * (x - xi))` (`prototipo_final.py` lines
143-144). -/
def dispersionC (p : Particle) : ℝ := p.Bi * kA * Real.exp (-kA * (p.x - p.xi))

/-- One iteration of the `update_particles` loop body
(`prototipo_final.py` lines 131-150): move the particle downstream by
`animation_speed * 0.8`, increment its age, pull `y` toward the river
centerline plus lateral noise `ν` and snap `z` to the river bed while the
particle is inside the domain, then recompute size and opacity from the
dispersion value `Cx` at the new position. -/
def updateParticle (ν : ℝ) (p : Particle) : Particle :=
  { p with
    x := p.x + animationSpeed * 0.8
    age := p.age + 1
    y := if p.x + animationSpeed * 0.8 < riverLengthA ∧
            pyInt ((p.x + animationSpeed * 0.8) * (resolutionA : ℝ) / riverLengthA)
              < (resolutionA : ℤ) then
          p.y + (yRiverAt (pyInt ((p.x + animationSpeed * 0.8) * (resolutionA : ℝ)
              / riverLengthA)) - p.y) * 0.1 + ν
        else p.y
    z := if p.x + animationSpeed * 0.8 < riverLengthA ∧
            pyInt ((p.x + animationSpeed * 0.8) * (resolutionA : ℝ) / riverLengthA)
              < (resolutionA : ℤ) then
          zRiverAt (pyInt ((p.x + animationSpeed * 0.8) * (resolutionA : ℝ)
              / riverLengthA)) + 1
        else p.z
    size := if p.sourceCity = "Huancayo" then
          max 1 (p.Bi * kA * Real.exp (-kA * (p.x + animationSpeed * 0.8 - p.xi)) * 0.5)
        else
          max 20 (p.Bi * kA * Real.exp (-kA * (p.x + animationSpeed * 0.8 - p.xi)) * 4)
    opacity := if p.sourceCity = "Huancayo" then
          min 1 (max 0.1 (p.Bi * kA * Real.exp (-kA * (p.x + animationSpeed * 0.8 - p.xi)) / p.Bi))
        else
          min 1 (max 0.7 (p.Bi * kA * Real.exp (-kA * (p.x + animationSpeed * 0.8 - p.xi)) / p.Bi)) }

/-- `update_particles` (`prototipo_final.py` lines 128-159): every
particle is updated, and a particle is then removed when its dispersion
value has dropped to `Cx ≤ 0.1`, or it has left the domain
(`x > river_length`), or it is too old (`age > 100`); the removal list is
deduplicated and applied, which is exactly a filter on the updated
particles. -/
def updateParticles (ν : ℕ → ℝ) (ps : List Particle) : List Particle :=
  (((List.range ps.length).zip ps).map fun q => updateParticle (ν q.1) q.2).filter
    fun p => decide (¬ (dispersionC p ≤ 0.1 ∨ riverLengthA < p.x ∨ 100 < p.age))

/-- The invariant claimed for the particles that survive a call to
`update_particles`. -/
def particleOK (p : Particle) : Prop :=
  p.x ≤ riverLengthA ∧ p.age ≤ 100 ∧ 0.1 < dispersionC p

/-- C9.  After every call to `update_particles`, every remaining particle
is inside the domain (`x ≤ river_length`), is at most `100` frames old,
and has dispersion value `Bi * k * exp (-k * (x - xi))` strictly greater
than `0.1`; particles violating any of these were removed by the same
call. -/
theorem update_particles_invariant (ν : ℕ → ℝ) (ps : List Particle) :
    ForallP particleOK (updateParticles ν ps) := by
  rw [forallP_iff_mem]
  intro p hp
  unfold updateParticles at hp
  rw [List.mem_filter] at hp
  have h2 := hp.2
  rw [decide_eq_true_eq] at h2
  push_neg at h2
  exact ⟨h2.2.1, h2.2.2, h2.1⟩

/-- Particle count for one city per emission event
(`prototipo_final.py` lines 96-104 and 170-179): Huancayo is capped at
`min(10, max(1, round(waste / 40)))`, every other city emits
`max(1, round(waste / 3))` particles. -/
def cityParticleCount (c : CityF) : ℕ :=
  if c.name = "Huancayo" then (min 10 (max 1 (pyRound (c.waste / 40)))).toNat
  else (max 1 (pyRound (c.waste / 3))).toNat

/-- A freshly emitted particle (`prototipo_final.py` lines 112-124 and
187-199): age `0`, position snapped to the river path at index `idx`,
rate and source location taken from the city. -/
def mkParticle (c : CityF) (px : ℝ) (idx : ℤ) (size opacity : ℝ) (pid : ℕ) :
    Particle :=
  { id := pid, x := px, y := yRiverAt idx, z := zRiverAt idx + 1, age := 0,
    sourceCity := c.name, color := c.color, size := size, Bi := c.waste,
    xi := c.distance, opacity := opacity }

/-- The inner emission loop for one city (`prototipo_final.py` lines
105-126 and 180-201): particle `i` is placed at `px = distance - i * 0.5`
(reset to `distance` if negative) and appended, with a fresh id, whenever
its path index is in range. -/
def addCityParticles (c : CityF) (size opacity : ℝ) (st : List Particle × ℕ) :
    List Particle × ℕ :=
  (List.range (cityParticleCount c)).foldl
    (fun st i =>
      if pyInt ((if c.distance - (i : ℝ) * 0.5 < 0 then c.distance
            else c.distance - (i : ℝ) * 0.5) * (resolutionA : ℝ) / riverLengthA)
          < (resolutionA : ℤ) then
        (st.1 ++ [mkParticle c
          (if c.distance - (i : ℝ) * 0.5 < 0 then c.distance
            else c.distance - (i : ℝ) * 0.5)
          (pyInt ((if c.distance - (i : ℝ) * 0.5 < 0 then c.distance
            else c.distance - (i : ℝ) * 0.5) * (resolutionA : ℝ) / riverLengthA))
          size opacity st.2], st.2 + 1)
      else st)
    st

/-- `add_waste_particles` (`prototipo_final.py` lines 90-126): each city
within 2 km of the advancing water front emits a batch of particles
(Huancayo with size `0.5`, the others with size `40`, opacity `1`). -/
def addWasteParticles (currentX : ℝ) (st : List Particle × ℕ) :
    List Particle × ℕ :=
  citiesDataF.foldl
    (fun st c =>
      if |currentX - c.distance| < 2 then
        addCityParticles c (if c.name = "Huancayo" then 0.5 else 40) 1.0 st
      else st)
    st

/-- The every-10-frames loop-mode emission in `create_frame`
(`prototipo_final.py` lines 170-201): every city emits a batch (Huancayo
with size `18`, the others with size `80`, opacity `1`). -/
def loopAddParticles (st : List Particle × ℕ) : List Particle × ℕ :=
  citiesDataF.foldl
    (fun st c => addCityParticles c (if c.name = "Huancayo" then 18 else 80) 1.0 st)
    st

/-- `prototipo_final.py` lines 202-204: when more than 200 particles are
stored, keep only the most recent 200
(`waste_particles = waste_particles[-200:]`). -/
def truncatedParticles (ps : List Particle) : List Particle :=
  if 200 < ps.length then ps.drop (ps.length - 200) else ps

/-- The particle-state part of `create_frame` (`prototipo_final.py` lines
161-207) before truncation: emit from the water front, and additionally
from every city when `frame_num % 10 == 0`. -/
def frameAddedState (frameNum : ℕ) (st : List Particle × ℕ) :
    List Particle × ℕ :=
  if frameNum % 10 = 0 then
    loopAddParticles (addWasteParticles ((frameNum : ℝ) * animationSpeed) st)
  else addWasteParticles ((frameNum : ℝ) * animationSpeed) st

/-- The full particle-state evolution of one `create_frame` call: add new
particles, truncate to the most recent 200, then run `update_particles`
(the remaining body of `create_frame` only builds plot traces). -/
def createFrameParticles (ν : ℕ → ℝ) (frameNum : ℕ) (st : List Particle × ℕ) :
    List Particle × ℕ :=
  (updateParticles ν (truncatedParticles (frameAddedState frameNum st).1),
   (frameAddedState frameNum st).2)

theorem truncatedParticles_le (ps : List Particle) :
    (truncatedParticles ps).length ≤ 200 := by
  unfold truncatedParticles
  split
  · next h => rw [List.length_drop]; omega
  · next h => omega

theorem updateParticles_length_le (ν : ℕ → ℝ) (ps : List Particle) :
    (updateParticles ν ps).length ≤ ps.length := by
  unfold updateParticles
  calc ((((List.range ps.length).zip ps).map fun q => updateParticle (ν q.1) q.2).filter
        fun p => decide (¬ (dispersionC p ≤ 0.1 ∨ riverLengthA < p.x ∨ 100 < p.age))).length
      ≤ (((List.range ps.length).zip ps).map fun q => updateParticle (ν q.1) q.2).length :=
        List.length_filter_le _ _
    _ = ((List.range ps.length).zip ps).length := List.length_map _ _
    _ = ps.length := by rw [List.length_zip, List.length_range, min_self]

/-- C10.  After every call to `create_frame` the stored particle list
holds at most 200 particles: the list is truncated to its most recent 200
entries after the new particles are added, and the `update_particles`
call that follows can only remove particles, never add them. -/
theorem create_frame_particle_cap (ν : ℕ → ℝ) (frameNum : ℕ)
    (st : List Particle × ℕ) :
    (createFrameParticles ν frameNum st).1.length ≤ 200 ∧
    ∀ ps : List Particle, (updateParticles ν ps).length ≤ ps.length := by
  refine ⟨?_, updateParticles_length_le ν⟩
  unfold createFrameParticles
  exact le_trans (updateParticles_length_le ν _) (truncatedParticles_le _)
